import Mathlib

/-!
Shallow embedding of the longrun-orchestrator core of this repository:
`orchestrate.py` (run-state record, atomic state writes, the orchestrator
control loop, the detach/reattach handoff) and `status.py` (workspace-root
resolution, run selection, status reporting).

External processes are abstracted by their observable results: the shell
command runner `run_shell` (orchestrate.py lines 95-106) is modelled by the
exit code it returns for each invocation, and the `git rev-parse
--show-toplevel` subprocess by an `Option String` holding its stdout when it
succeeds.  Filesystem contents relevant to a claim are passed in explicitly
and threaded through the definitions.
-/

namespace LongRun

/-- Status values of the `status` field of the run-state record
(orchestrate.py line 55: created|running|completed|failed). -/
inductive Status where
  | created
  | running
  | completed
  | failed
deriving DecidableEq, Repr

/-- The RunState dataclass (orchestrate.py lines 49-61).  Optional fields
default to none, as the dataclass defaults them to None. -/
structure RunState where
  run_id : String
  label : String
  workspace : String
  created_at : String
  status : Status
  main_cmd : String
  then_cmds : List String
  main_pid : Option Int := none
  main_rc : Option Int := none
  then_rcs : Option (List Int) := none
  error : Option String := none
deriving DecidableEq, Repr

/-- The RunState constructed by orchestrate.py lines 133-141: status
"created", every optional field left at its dataclass default. -/
def mkInitialState (runId label ws createdAt cmd : String) (thens : List String) : RunState :=
  { run_id := runId
    label := label
    workspace := ws
    created_at := createdAt
    status := Status.created
    main_cmd := cmd
    then_cmds := thens }

/-- Observable events of one orchestrator execution, in program order: each
`run_shell` invocation (the main command or the i-th follow-up, i counted
from 1 as by enumerate(start=1)) and each `write_json` call on state.json
with the record it persists. -/
inductive Event where
  | runMain (rc : Int)
  | runFollowup (step : Nat) (rc : Int)
  | persist (s : RunState)
deriving DecidableEq, Repr

/-- Result of the orchestrator run phase: the final in-memory state, the
ordered list of observable events, and the value returned by main (the
process exit code). -/
structure OrchResult where
  final : RunState
  events : List Event
  exitCode : Int
deriving DecidableEq, Repr

/-- The follow-up loop of orchestrate.py lines 199-213.  `thenExit i` is the
exit code `run_shell` returns for the i-th follow-up (i counted from 1).
Arguments `cmds`, `i`, `acc` are the remaining commands, the next step
number, and the local `then_rcs` list accumulated so far.  On each iteration
the exit code is appended to the local list; only on a nonzero code (lines
203-208) or after the loop (lines 210-212) is the state persisted. -/
def followupPhase (thenExit : Nat → Int) (state : RunState) :
    List String → Nat → List Int → RunState × List Event × Int
  | [], _i, acc =>
      let fin := { state with then_rcs := some acc, status := Status.completed }
      (fin, [Event.persist fin], 0)
  | _cmd :: rest, i, acc =>
      let rc := thenExit i
      if rc ≠ 0 then
        let fin := { state with
          status := Status.failed
          then_rcs := some (acc ++ [rc])
          error := some ("follow-up failed at step " ++ toString i ++ " rc=" ++ toString rc) }
        (fin, [Event.runFollowup i rc, Event.persist fin], 1)
      else
        let r := followupPhase thenExit state rest (i + 1) (acc ++ [rc])
        (r.1, Event.runFollowup i rc :: r.2.1, r.2.2)

/-- The non-detached run phase of orchestrate.py main, lines 185-213:
transition to running and persist; run the main command and record
`main_rc`; on nonzero fail and persist (lines 192-196, return 1); otherwise
run the follow-up loop.  `state0` is the state in memory when line 185 is
reached, `mainRc` the exit code of the main command. -/
def orchestrateRun (state0 : RunState) (mainRc : Int) (thenExit : Nat → Int) : OrchResult :=
  let running := { state0 with status := Status.running }
  let stateM := { running with main_rc := some mainRc }
  if mainRc ≠ 0 then
    let fin := { stateM with
      status := Status.failed
      error := some ("main command failed with rc=" ++ toString mainRc) }
    { final := fin
      events := [Event.persist running, Event.runMain mainRc, Event.persist fin]
      exitCode := 1 }
  else
    let r := followupPhase thenExit stateM stateM.then_cmds 1 []
    { final := r.1
      events := Event.persist running :: Event.runMain mainRc :: r.2.1
      exitCode := r.2.2 }

/-- Projection of a persist event to the record it writes. -/
def persistEvent : Event → Option RunState
  | Event.persist s => some s
  | _ => none

/-- The sequence of records written to state.json during the run phase, in
order. -/
def persistedStates (r : OrchResult) : List RunState :=
  r.events.filterMap persistEvent

/-- Projection of a follow-up invocation event to its step number. -/
def followupStep : Event → Option Nat
  | Event.runFollowup i _ => some i
  | _ => none

/-- The step numbers of the follow-up commands actually invoked, in order. -/
def followupInvocations (r : OrchResult) : List Nat :=
  r.events.filterMap followupStep

/-! Atomic state writes: write_json (orchestrate.py lines 64-67). -/

/-- Filesystem paths split as directory and file name; with_suffix only ever
rewrites the file name, never the directory. -/
structure PPath where
  dir : String
  fname : String
deriving DecidableEq, Repr

/-- The temporary path chosen at line 65: path.with_suffix(path.suffix +
".tmp"), which for a name with one extension (state.json) appends ".tmp" to
the file name and keeps the directory. -/
def tmpPath (p : PPath) : PPath :=
  { dir := p.dir, fname := p.fname ++ ".tmp" }

/-- A directory tree as a map from paths to file contents. -/
def FS : Type := PPath → Option String

/-- Creating or replacing one file's contents (tmp.write_text, line 66; the
write is flushed when the file is closed). -/
def fsSet (fs : FS) (p : PPath) (v : String) : FS :=
  fun q => if q = p then some v else fs q

/-- Atomic rename of src over dst (tmp.replace(path), line 67): dst now
holds what src held, src is gone, nothing else changes. -/
def fsRename (fs : FS) (src dst : PPath) : FS :=
  fun q => if q = dst then fs src else if q = src then none else fs q

/-- The successive filesystem states produced by write_json (lines 64-67)
when called on a tree `fs`, a target `path`, and the serialized record
`content` (json.dumps of the full dataclass dict, line 66): the initial
tree, the tree after the temporary sibling is written, and the tree after
the rename.  These are all the states a concurrent reader can observe. -/
def write_json_states (fs : FS) (path : PPath) (content : String) : List FS :=
  let tmp := tmpPath path
  let fs1 := fsSet fs tmp content
  let fs2 := fsRename fs1 tmp path
  [fs, fs1, fs2]

/-! Workspace-root resolution (orchestrate.py lines 25-46 and status.py
lines 15-31, identical logic). -/

/-- Models resolve_workspace_root.  `explicit` is the --workspace argument
(None by default; Python truthiness makes an empty string count as absent).
`gitToplevel` models the `git rev-parse --show-toplevel` subprocess: none
when the command fails (not inside a git repository), some stdout otherwise.
A failing command or whitespace-only output falls through to the SystemExit
at the end; the current working directory is never used. -/
def resolve_workspace_root (explicit : Option String) (gitToplevel : Option String) :
    Except String String :=
  if explicit.getD "" ≠ "" then Except.ok (explicit.getD "")
  else
    match gitToplevel with
    | some out =>
        let root := out.trim
        if root ≠ "" then Except.ok root
        else Except.error "Not in a git repo. Pass --workspace to choose the workspace root explicitly."
    | none =>
        Except.error "Not in a git repo. Pass --workspace to choose the workspace root explicitly."

/-! Status reporter (status.py). -/

/-- How status.py main picks the run directory. -/
inductive RunSelector where
  | latest
  | byId (id : String)
deriving DecidableEq, Repr

/-- The selector dispatch of status.py lines 55-61: --latest takes the first
branch; otherwise a (truthy) --run-id selects that directory; with neither,
ap.error prints usage and exits the process with status 2. -/
def selectRun (latestFlag : Bool) (run_id : Option String) : Except Int RunSelector :=
  if latestFlag then Except.ok RunSelector.latest
  else if run_id.getD "" ≠ "" then Except.ok (RunSelector.byId (run_id.getD ""))
  else Except.error 2

/-- Condition of the state.json file inside the resolved run directory:
absent, present but not valid JSON, or parsed to a record. -/
inductive StateFileContent where
  | missing
  | unparseable
  | parsed (s : RunState)
deriving DecidableEq, Repr

/-- Outcome of status.py main from line 63 on: a normal return (the process
exit code) or an exception that propagates out of main uncaught. -/
inductive StatusOutcome where
  | exited (code : Int)
  | crashed (exn : String)
deriving DecidableEq, Repr

/-- Models status.py main lines 63-90 for a resolved run directory.
`dirExists` is whether run_dir is a directory (line 63; also false when the
latest-run lookup returned None).  A missing directory or missing state.json
prints a message and returns 1 (lines 63-70); a present but unparseable
state.json makes json.loads (line 72) raise, and nothing catches it; a
parsed state is printed and main returns 0. -/
def statusReport (dirExists : Bool) (f : StateFileContent) : StatusOutcome :=
  if !dirExists then StatusOutcome.exited 1
  else
    match f with
    | StateFileContent.missing => StatusOutcome.exited 1
    | StateFileContent.unparseable => StatusOutcome.crashed "json.JSONDecodeError"
    | StateFileContent.parsed _ => StatusOutcome.exited 0

/-- Models status.py main in order (lines 45-90): resolve the workspace root
first (a SystemExit there ends the process before any run directory or
state file is looked at), then dispatch on the selector, then report. -/
def statusMain (explicitWs gitToplevel : Option String) (latestFlag : Bool)
    (run_id : Option String) (dirExists : Bool) (f : StateFileContent) :
    Except String StatusOutcome :=
  match resolve_workspace_root explicitWs gitToplevel with
  | Except.error e => Except.error e
  | Except.ok _ws =>
      match selectRun latestFlag run_id with
      | Except.error c => Except.ok (StatusOutcome.exited c)
      | Except.ok _sel => Except.ok (statusReport dirExists f)

/-! Most-recent run selection: latest_run_dir (status.py lines 34-42). -/

/-- Lexicographic less-or-equal on character lists, by code point exactly as
Python compares str values. -/
def charListLe : List Char → List Char → Bool
  | [], _ => true
  | _ :: _, [] => false
  | x :: xs, y :: ys => if x < y then true else if y < x then false else charListLe xs ys

/-- Python string comparison (code-point lexicographic), the order used by
sorted() on the directory names. -/
def pyStrLe (a b : String) : Bool :=
  charListLe a.toList b.toList

/-- Insertion of one name into an already sorted list of names. -/
def insertSorted (x : String) : List String → List String
  | [] => [x]
  | y :: ys => if pyStrLe x y then x :: y :: ys else y :: insertSorted x ys

/-- Ascending sort of the directory names.  sorted() is a comparison sort
for the total order pyStrLe; since that order is linear on the names the
sorted list is the same for any such sort, modelled here as insertion
sort. -/
def sortNames : List String → List String
  | [] => []
  | x :: xs => insertSorted x (sortNames xs)

/-- Models latest_run_dir (status.py lines 34-42) applied to the list of
run-directory names under the runs root: None when there are none,
otherwise sorted(dirs, key=name)[-1], the last element of the ascending
sort. -/
def latest_run_dir (dirs : List String) : Option String :=
  match dirs with
  | [] => none
  | _ :: _ => (sortNames dirs).getLast?

/-- Run-directory names as built by make_run_dir (orchestrate.py line 75):
label, underscore, timestamp tag. -/
def mkRunName (label timestamp : String) : String :=
  label ++ "_" ++ timestamp

/-! Detach handoff: the worker side (orchestrate.py main, LONGRUN_RUN_DIR
set). -/

/-- Replacing the parsed content of state.json (write_json is an atomic
replace, so afterwards the file holds exactly the new record). -/
def fsWriteState (_file : Option RunState) (s : RunState) : Option RunState :=
  some s

/-- Models the startup of the spawned background worker (orchestrate.py main
with LONGRUN_RUN_DIR set, lines 121-186 up to the running transition):
`fileBefore` is the state.json content left by the detaching parent; lines
133-142 build a fresh RunState -- with the worker's own clock reading
`workerNow` as created_at -- and write it to state.json; lines 181-183 then
read state.json back and continue from the record obtained.  Returns that
record and the file content at that point. -/
def workerReattach (fileBefore : Option RunState) (runId label ws cmd : String)
    (thens : List String) (workerNow : String) : RunState × Option RunState :=
  let fresh := mkInitialState runId label ws workerNow cmd thens
  let file1 := fsWriteState fileBefore fresh
  let reloaded := file1.getD fresh
  (reloaded, file1)

/-- Models orchestrate.py main for a fresh non-detached run (lines 109-213):
resolve the workspace root first; only when that succeeds is the run
directory created, the initial state written (line 142) and the run phase
entered.  A SystemExit from resolve_workspace_root therefore ends the
process before any run state exists, which the error result models: it
carries no events. -/
def orchestrateMain (explicitWs gitToplevel : Option String)
    (runId label cmd createdAt : String) (thens : List String)
    (mainRc : Int) (thenExit : Nat → Int) : Except String OrchResult :=
  match resolve_workspace_root explicitWs gitToplevel with
  | Except.error e => Except.error e
  | Except.ok ws =>
      let state0 := mkInitialState runId label ws createdAt cmd thens
      let r := orchestrateRun state0 mainRc thenExit
      Except.ok { r with events := Event.persist state0 :: r.events }

/-! Helper lemmas. -/

theorem path_ne_tmpPath (p : PPath) : p ≠ tmpPath p := by
  intro h
  have hn : p.fname.length = (p.fname ++ ".tmp").length :=
    congrArg (fun q => q.fname.length) h
  have h4 : (".tmp" : String).length = 4 := rfl
  rw [String.length_append, h4] at hn
  omega

/-! Claim theorems. -/

/-- C4: every state-store write goes to a temporary sibling in the same
directory (written in full, flushed when the file closes) and is then
renamed over the target, so the target path reads as the old content in
every filesystem state before the rename and as the complete new content
after it -- a concurrent reader never sees a partial file. -/
theorem write_json_atomic_replace (fs : FS) (path : PPath) (content : String) :
    (tmpPath path).dir = path.dir ∧
    (write_json_states fs path content).map (fun s => s path) =
      [fs path, fs path, some content] := by
  refine ⟨rfl, ?_⟩
  have hne : path ≠ tmpPath path := path_ne_tmpPath path
  simp [write_json_states, fsSet, fsRename, hne]

/-- C5 counterexample: invoking the Status program with both the
most-recent flag and an explicit run identifier is not treated as argument
misuse -- the dispatch takes the latest branch instead of exiting with
code 2. -/
theorem status_both_selectors_not_misuse :
    selectRun true (some "demo_20250101_000000") = Except.ok RunSelector.latest ∧
    (Except.ok RunSelector.latest : Except Int RunSelector) ≠ Except.error 2 := by
  refine ⟨rfl, ?_⟩
  intro h
  exact Except.noConfusion h

/-- C5 amended: the Status program requires at least one of the most-recent
flag and an explicit run identifier; with neither it exits with code 2,
and when both are supplied the most-recent flag takes precedence (the run
identifier is ignored), which is not misuse. -/
theorem status_selector_dispatch (id : String) (hid : id ≠ "") :
    selectRun false none = Except.error 2 ∧
    selectRun true none = Except.ok RunSelector.latest ∧
    selectRun true (some id) = Except.ok RunSelector.latest ∧
    selectRun false (some id) = Except.ok (RunSelector.byId id) := by
  refine ⟨rfl, rfl, rfl, ?_⟩
  simp [selectRun, hid]

/-- Witness for the amended C5 statement at a concrete run identifier. -/
theorem status_selector_dispatch_witness :
    selectRun false none = Except.error 2 ∧
    selectRun true none = Except.ok RunSelector.latest ∧
    selectRun true (some "demo_20250101_000000") = Except.ok RunSelector.latest ∧
    selectRun false (some "demo_20250101_000000") =
      Except.ok (RunSelector.byId "demo_20250101_000000") :=
  status_selector_dispatch "demo_20250101_000000" (by decide)

/-- C2 counterexample: on a run directory whose state.json is present but
unparseable, the Status Reporter does not exit with code 1 -- json.loads
raises and nothing catches it, so main crashes with an unhandled
JSONDecodeError. -/
theorem status_corrupt_state_crashes :
    statusReport true StateFileContent.unparseable =
      StatusOutcome.crashed "json.JSONDecodeError" ∧
    statusReport true StateFileContent.unparseable ≠ StatusOutcome.exited 1 := by
  decide

/-- C2 amended: a missing run directory and a missing state.json are both
reported with exit code 1 rather than a crash, and a readable state gives
exit code 0; a present but unparseable state.json, however, raises an
unhandled JSONDecodeError out of main. -/
theorem status_missing_state_reported (f : StateFileContent) (s : RunState) :
    statusReport false f = StatusOutcome.exited 1 ∧
    statusReport true StateFileContent.missing = StatusOutcome.exited 1 ∧
    statusReport true StateFileContent.unparseable =
      StatusOutcome.crashed "json.JSONDecodeError" ∧
    statusReport true (StateFileContent.parsed s) = StatusOutcome.exited 0 :=
  ⟨rfl, rfl, rfl, rfl⟩

/-- C3: evaluation at the failing input.  The detaching parent leaves
state.json with created_at 2025-01-01T00:00:00; the background worker,
starting five seconds later with the same arguments, rebuilds and rewrites
the state before reloading it, so the record it continues from carries the
worker's own created_at, not the one written by the original allocation. -/
theorem worker_reattach_overwrites_created_at :
    (workerReattach
        (some (mkInitialState "nightly_20250101_000000" "nightly" "/ws"
          "2025-01-01T00:00:00" "make all" []))
        "nightly_20250101_000000" "nightly" "/ws" "make all" []
        "2025-01-01T00:00:05").1.created_at = "2025-01-01T00:00:05" ∧
    (mkInitialState "nightly_20250101_000000" "nightly" "/ws"
        "2025-01-01T00:00:00" "make all" []).created_at ≠ "2025-01-01T00:00:05" := by
  decide

/-- C10: with no explicit workspace root and no git toplevel (the current
directory is not inside a git repository), both programs end in the
SystemExit raised by resolve_workspace_root; the error result carries no
run events and no status outcome, so no run state is created or read, and
the current working directory is never used as the workspace root. -/
theorem no_cwd_fallback_without_git
    (runId label cmd createdAt : String) (thens : List String)
    (mainRc : Int) (thenExit : Nat → Int)
    (latestFlag : Bool) (run_id : Option String) (dirExists : Bool)
    (f : StateFileContent) :
    orchestrateMain none none runId label cmd createdAt thens mainRc thenExit =
      Except.error
        "Not in a git repo. Pass --workspace to choose the workspace root explicitly." ∧
    statusMain none none latestFlag run_id dirExists f =
      Except.error
        "Not in a git repo. Pass --workspace to choose the workspace root explicitly." :=
  ⟨rfl, rfl⟩

/-- C1 counterexample: a run with two follow-up commands that both exit 0.
The full event trace shows the two follow-up invocations back to back with
no state-file write between them, and the only persisted records are the
running state (with then_rcs unset) and the final completed state -- no
persisted state ever records exactly the exit codes of the follow-ups
finished so far (which after the first follow-up would be [0]). -/
theorem followup_persist_counterexample :
    (orchestrateRun (mkInitialState "demo_20250101_000000" "demo" "/ws"
        "2025-01-01T00:00:00" "true" ["f1", "f2"]) 0 (fun _ => 0)).events =
      [Event.persist { mkInitialState "demo_20250101_000000" "demo" "/ws"
          "2025-01-01T00:00:00" "true" ["f1", "f2"] with status := Status.running },
       Event.runMain 0,
       Event.runFollowup 1 0,
       Event.runFollowup 2 0,
       Event.persist { mkInitialState "demo_20250101_000000" "demo" "/ws"
          "2025-01-01T00:00:00" "true" ["f1", "f2"] with
          status := Status.completed, main_rc := some 0, then_rcs := some [0, 0] }] ∧
    persistedStates (orchestrateRun (mkInitialState "demo_20250101_000000" "demo" "/ws"
        "2025-01-01T00:00:00" "true" ["f1", "f2"]) 0 (fun _ => 0)) =
      [{ mkInitialState "demo_20250101_000000" "demo" "/ws"
          "2025-01-01T00:00:00" "true" ["f1", "f2"] with status := Status.running },
       { mkInitialState "demo_20250101_000000" "demo" "/ws"
          "2025-01-01T00:00:00" "true" ["f1", "f2"] with
          status := Status.completed, main_rc := some 0, then_rcs := some [0, 0] }] := by
  decide

theorem followupPhase_persist_final (thenExit : Nat → Int) (st : RunState) :
    ∀ (cmds : List String) (i : Nat) (acc : List Int),
      (followupPhase thenExit st cmds i acc).2.1.filterMap persistEvent =
        [(followupPhase thenExit st cmds i acc).1] := by
  intro cmds
  induction cmds with
  | nil => intro i acc; rfl
  | cons c rest ih =>
      intro i acc
      by_cases h : thenExit i = 0
      · simp [followupPhase, h, persistEvent, ih]
      · simp [followupPhase, h, persistEvent]

/-- C1 amended: within one run the orchestrator persists the state exactly
twice after entering the run phase -- once on the transition to running
(with then_rcs still unset) and once with the terminal state.  Follow-up
exit codes are appended to an in-memory list only, so a run interrupted
mid-chain leaves the running state, with no follow-up exit codes, as the
last persisted record. -/
theorem persist_only_running_and_final (state0 : RunState) (mainRc : Int)
    (thenExit : Nat → Int) :
    persistedStates (orchestrateRun state0 mainRc thenExit) =
      [{ state0 with status := Status.running },
       (orchestrateRun state0 mainRc thenExit).final] := by
  by_cases h : mainRc = 0
  · subst h
    simp [orchestrateRun, persistedStates, persistEvent, followupPhase_persist_final]
  · simp [orchestrateRun, persistedStates, persistEvent, h]

theorem followupPhase_firstFail (thenExit : Nat → Int) (st : RunState) (c : Int)
    (hc : c ≠ 0) :
    ∀ (j : Nat) (cmds : List String) (i : Nat) (acc : List Int),
      j < cmds.length →
      (∀ k, k < j → thenExit (i + k) = 0) →
      thenExit (i + j) = c →
      followupPhase thenExit st cmds i acc =
        ({ st with
            status := Status.failed
            then_rcs := some (acc ++ List.replicate j 0 ++ [c])
            error := some ("follow-up failed at step " ++ toString (i + j) ++
              " rc=" ++ toString c) },
         (List.range' i j).map (fun k => Event.runFollowup k 0) ++
           [Event.runFollowup (i + j) c,
            Event.persist { st with
              status := Status.failed
              then_rcs := some (acc ++ List.replicate j 0 ++ [c])
              error := some ("follow-up failed at step " ++ toString (i + j) ++
                " rc=" ++ toString c) }],
         1) := by
  intro j
  induction j with
  | zero =>
      intro cmds i acc hlen _hprev hfail
      match cmds with
      | [] => simp at hlen
      | cmd :: rest =>
          have hrc : thenExit i = c := by simpa using hfail
          simp [followupPhase, hrc, hc]
  | succ j ih =>
      intro cmds i acc hlen hprev hfail
      match cmds with
      | [] => simp at hlen
      | cmd :: rest =>
          have h0 : thenExit i = 0 := by simpa using hprev 0 (Nat.succ_pos j)
          have hrec := ih rest (i + 1) (acc ++ [0])
            (Nat.lt_of_succ_lt_succ hlen)
            (fun k hk => by
              have hp := hprev (k + 1) (Nat.succ_lt_succ hk)
              rwa [show i + 1 + k = i + (k + 1) by omega])
            (by rwa [show i + 1 + j = i + (j + 1) by omega])
          rw [show i + 1 + j = i + (j + 1) by omega] at hrec
          simp only [followupPhase, h0]
          rw [if_neg (by simp)]
          rw [hrec]
          simp [List.replicate_succ, List.range'_succ]


theorem followupPhase_allZero (thenExit : Nat → Int) (st : RunState) :
    ∀ (cmds : List String) (i : Nat) (acc : List Int),
      (∀ k, k < cmds.length → thenExit (i + k) = 0) →
      followupPhase thenExit st cmds i acc =
        ({ st with
            then_rcs := some (acc ++ List.replicate cmds.length 0)
            status := Status.completed },
         (List.range' i cmds.length).map (fun k => Event.runFollowup k 0) ++
           [Event.persist { st with
              then_rcs := some (acc ++ List.replicate cmds.length 0)
              status := Status.completed }],
         0) := by
  intro cmds
  induction cmds with
  | nil =>
      intro i acc _h
      simp [followupPhase]
  | cons c rest ih =>
      intro i acc hall
      have h0 : thenExit i = 0 := by simpa using hall 0 (Nat.succ_pos rest.length)
      have hrec := ih (i + 1) (acc ++ [0])
        (fun k hk => by
          have hp := hall (k + 1) (Nat.succ_lt_succ hk)
          rwa [show i + 1 + k = i + (k + 1) by omega])
      simp only [followupPhase, h0]
      rw [if_neg (by simp)]
      rw [hrec]
      simp [List.replicate_succ, List.range'_succ]

theorem followupPhase_terminal (thenExit : Nat → Int) (st : RunState) :
    ∀ (cmds : List String) (i : Nat) (acc : List Int),
      ((followupPhase thenExit st cmds i acc).1.status = Status.completed ∧
        (followupPhase thenExit st cmds i acc).2.2 = 0) ∨
      ((followupPhase thenExit st cmds i acc).1.status = Status.failed ∧
        (followupPhase thenExit st cmds i acc).2.2 = 1) := by
  intro cmds
  induction cmds with
  | nil => intro i acc; left; exact ⟨rfl, rfl⟩
  | cons c rest ih =>
      intro i acc
      by_cases h : thenExit i = 0
      · simpa [followupPhase, h] using ih (i + 1) (acc ++ [0])
      · right
        simp [followupPhase, h]

theorem orchestrateRun_exit_dichotomy (state0 : RunState) (mainRc : Int)
    (thenExit : Nat → Int) :
    ((orchestrateRun state0 mainRc thenExit).exitCode = 0 ∧
      (orchestrateRun state0 mainRc thenExit).final.status = Status.completed) ∨
    ((orchestrateRun state0 mainRc thenExit).exitCode = 1 ∧
      (orchestrateRun state0 mainRc thenExit).final.status = Status.failed) := by
  by_cases h : mainRc = 0
  · subst h
    have hterm := followupPhase_terminal thenExit
      { { state0 with status := Status.running } with main_rc := some 0 }
      state0.then_cmds 1 []
    rcases hterm with ⟨h1, h2⟩ | ⟨h1, h2⟩
    · left
      exact ⟨by simpa [orchestrateRun] using h2, by simpa [orchestrateRun] using h1⟩
    · right
      exact ⟨by simpa [orchestrateRun] using h2, by simpa [orchestrateRun] using h1⟩
  · right
    simp [orchestrateRun, h]

/-- C7: when the main command exits with a nonzero code, the orchestrator
records it, sets the main-failure error message, persists the failed state,
returns exit code 1, and never invokes a follow-up, leaving no follow-up
exit codes recorded. -/
theorem main_failure_skips_followups
    (runId label ws createdAt cmd : String) (thens : List String)
    (thenExit : Nat → Int) (c : Int) (hc : c ≠ 0) :
    (orchestrateRun (mkInitialState runId label ws createdAt cmd thens) c thenExit).final.status
        = Status.failed ∧
    (orchestrateRun (mkInitialState runId label ws createdAt cmd thens) c thenExit).final.main_rc
        = some c ∧
    (orchestrateRun (mkInitialState runId label ws createdAt cmd thens) c thenExit).final.error
        = some ("main command failed with rc=" ++ toString c) ∧
    (orchestrateRun (mkInitialState runId label ws createdAt cmd thens) c thenExit).final.then_rcs
        = none ∧
    followupInvocations (orchestrateRun (mkInitialState runId label ws createdAt cmd thens) c thenExit)
        = [] ∧
    persistedStates (orchestrateRun (mkInitialState runId label ws createdAt cmd thens) c thenExit)
        = [{ mkInitialState runId label ws createdAt cmd thens with status := Status.running },
           (orchestrateRun (mkInitialState runId label ws createdAt cmd thens) c thenExit).final] ∧
    (orchestrateRun (mkInitialState runId label ws createdAt cmd thens) c thenExit).exitCode
        = 1 := by
  refine ⟨?_, ?_, ?_, ?_, ?_, ?_, ?_⟩ <;>
    simp [orchestrateRun, hc, mkInitialState, followupInvocations, followupStep,
      persistedStates, persistEvent]

/-- Witness for C7: a run whose main command exits 2, with one follow-up
that would create a marker file; the follow-up is never invoked. -/
theorem main_failure_skips_followups_witness :
    (orchestrateRun (mkInitialState "demo_20250101_000000" "demo" "/ws"
        "2025-01-01T00:00:00" "false" ["touch marker"]) 2 (fun _ => 0)).final.status
        = Status.failed ∧
    (orchestrateRun (mkInitialState "demo_20250101_000000" "demo" "/ws"
        "2025-01-01T00:00:00" "false" ["touch marker"]) 2 (fun _ => 0)).final.main_rc
        = some 2 ∧
    (orchestrateRun (mkInitialState "demo_20250101_000000" "demo" "/ws"
        "2025-01-01T00:00:00" "false" ["touch marker"]) 2 (fun _ => 0)).final.error
        = some "main command failed with rc=2" ∧
    (orchestrateRun (mkInitialState "demo_20250101_000000" "demo" "/ws"
        "2025-01-01T00:00:00" "false" ["touch marker"]) 2 (fun _ => 0)).final.then_rcs
        = none ∧
    followupInvocations (orchestrateRun (mkInitialState "demo_20250101_000000" "demo" "/ws"
        "2025-01-01T00:00:00" "false" ["touch marker"]) 2 (fun _ => 0))
        = [] ∧
    persistedStates (orchestrateRun (mkInitialState "demo_20250101_000000" "demo" "/ws"
        "2025-01-01T00:00:00" "false" ["touch marker"]) 2 (fun _ => 0))
        = [{ mkInitialState "demo_20250101_000000" "demo" "/ws"
              "2025-01-01T00:00:00" "false" ["touch marker"] with status := Status.running },
           (orchestrateRun (mkInitialState "demo_20250101_000000" "demo" "/ws"
              "2025-01-01T00:00:00" "false" ["touch marker"]) 2 (fun _ => 0)).final] ∧
    (orchestrateRun (mkInitialState "demo_20250101_000000" "demo" "/ws"
        "2025-01-01T00:00:00" "false" ["touch marker"]) 2 (fun _ => 0)).exitCode
        = 1 :=
  main_failure_skips_followups "demo_20250101_000000" "demo" "/ws"
    "2025-01-01T00:00:00" "false" ["touch marker"] (fun _ => 0) 2 (by decide)

/-- C8: a run whose main command exits 0 and whose follow-ups (the empty
chain included) all exit 0 ends with persisted status completed and no
error message, with process exit code 0; and for every run the
orchestrator's exit code mirrors the terminal status -- 0 exactly when
completed, 1 when failed. -/
theorem success_completes_and_exit_mirrors
    (runId label ws createdAt cmd : String) (thens : List String) (thenExit : Nat → Int)
    (hall : ∀ k, k < thens.length → thenExit (1 + k) = 0) :
    ((orchestrateRun (mkInitialState runId label ws createdAt cmd thens) 0 thenExit).final.status
        = Status.completed ∧
     (orchestrateRun (mkInitialState runId label ws createdAt cmd thens) 0 thenExit).final.error
        = none ∧
     (orchestrateRun (mkInitialState runId label ws createdAt cmd thens) 0 thenExit).exitCode
        = 0) ∧
    ∀ (st : RunState) (m : Int) (te : Nat → Int),
      ((orchestrateRun st m te).exitCode = 0 ↔
        (orchestrateRun st m te).final.status = Status.completed) ∧
      ((orchestrateRun st m te).final.status = Status.failed →
        (orchestrateRun st m te).exitCode = 1) := by
  constructor
  · have hphase := followupPhase_allZero thenExit
      { mkInitialState runId label ws createdAt cmd thens with
        status := Status.running, main_rc := some 0 }
      thens 1 [] hall
    refine ⟨?_, ?_, ?_⟩ <;>
      simp [orchestrateRun, mkInitialState] at hphase ⊢ <;>
      simp [hphase, mkInitialState]
  · intro st m te
    rcases orchestrateRun_exit_dichotomy st m te with ⟨h1, h2⟩ | ⟨h1, h2⟩
    · refine ⟨⟨fun _ => h2, fun _ => h1⟩, ?_⟩
      intro hf
      rw [h2] at hf
      exact absurd hf (by decide)
    · refine ⟨⟨?_, ?_⟩, fun _ => h1⟩
      · intro h0
        rw [h1] at h0
        exact absurd h0 (by decide)
      · intro hcomp
        rw [h2] at hcomp
        exact absurd hcomp (by decide)

/-- Witness for C8 at a concrete successful run with two follow-ups. -/
theorem success_completes_and_exit_mirrors_witness :
    (orchestrateRun (mkInitialState "demo_20250101_000000" "demo" "/ws"
        "2025-01-01T00:00:00" "true" ["f1", "f2"]) 0 (fun _ => 0)).final.status
        = Status.completed ∧
    (orchestrateRun (mkInitialState "demo_20250101_000000" "demo" "/ws"
        "2025-01-01T00:00:00" "true" ["f1", "f2"]) 0 (fun _ => 0)).final.error
        = none ∧
    (orchestrateRun (mkInitialState "demo_20250101_000000" "demo" "/ws"
        "2025-01-01T00:00:00" "true" ["f1", "f2"]) 0 (fun _ => 0)).exitCode
        = 0 :=
  (success_completes_and_exit_mirrors "demo_20250101_000000" "demo" "/ws"
    "2025-01-01T00:00:00" "true" ["f1", "f2"] (fun _ => 0) (fun _ _ => rfl)).1

/-- C6: when the main command exits 0 and the n-th follow-up is the first
to exit nonzero (code c), the final state is failed with error message
"follow-up failed at step n rc=c", the recorded follow-up exit codes are
exactly those of follow-ups 1..n, only follow-ups 1..n were ever invoked,
and the orchestrator exits 1. -/
theorem followup_failure_records_step
    (runId label ws createdAt cmd : String) (thens : List String) (thenExit : Nat → Int)
    (n : Nat) (c : Int) (hn1 : 1 ≤ n) (hn2 : n ≤ thens.length)
    (hc : thenExit n = c) (hc0 : c ≠ 0)
    (hk : ∀ k, 1 ≤ k → k < n → thenExit k = 0) :
    (orchestrateRun (mkInitialState runId label ws createdAt cmd thens) 0 thenExit).final.status
        = Status.failed ∧
    (orchestrateRun (mkInitialState runId label ws createdAt cmd thens) 0 thenExit).final.error
        = some ("follow-up failed at step " ++ toString n ++ " rc=" ++ toString c) ∧
    (orchestrateRun (mkInitialState runId label ws createdAt cmd thens) 0 thenExit).final.then_rcs
        = some ((List.range' 1 n).map thenExit) ∧
    followupInvocations (orchestrateRun (mkInitialState runId label ws createdAt cmd thens) 0 thenExit)
        = List.range' 1 n ∧
    (orchestrateRun (mkInitialState runId label ws createdAt cmd thens) 0 thenExit).exitCode
        = 1 := by
  have hj : n - 1 < thens.length := by omega
  have hprev : ∀ k, k < n - 1 → thenExit (1 + k) = 0 :=
    fun k hkk => hk (1 + k) (by omega) (by omega)
  have hfail : thenExit (1 + (n - 1)) = c := by
    rw [show 1 + (n - 1) = n by omega]
    exact hc
  have hphase := followupPhase_firstFail thenExit
    { mkInitialState runId label ws createdAt cmd thens with
      status := Status.running, main_rc := some 0 }
    c hc0 (n - 1) thens 1 [] hj hprev hfail
  rw [show 1 + (n - 1) = n by omega] at hphase
  have hsplit : List.range' 1 n = List.range' 1 (n - 1) ++ [n] := by
    have h := @List.range'_concat 1 1 (n - 1)
    rw [show (n - 1) + 1 = n by omega] at h
    rw [show 1 + 1 * (n - 1) = n by omega] at h
    exact h
  have hmap : List.replicate (n - 1) 0 ++ [c] = (List.range' 1 n).map thenExit := by
    rw [hsplit, List.map_append]
    congr 1
    · symm
      rw [List.eq_replicate_iff]
      refine ⟨by simp, ?_⟩
      intro b hb
      obtain ⟨k, hk', rfl⟩ := List.mem_map.mp hb
      have hmem := List.mem_range'_1.mp hk'
      exact hk k hmem.1 (by omega)
    · simp [hc]
  have hcomp : (followupStep ∘ fun k => Event.runFollowup k 0) = some := by
    funext k
    rfl
  refine ⟨?_, ?_, ?_, ?_, ?_⟩
  · simp [orchestrateRun, mkInitialState] at hphase ⊢
    simp [hphase]
  · simp [orchestrateRun, mkInitialState] at hphase ⊢
    simp [hphase]
  · simp [orchestrateRun, mkInitialState] at hphase ⊢
    simp [hphase]
    rw [hmap, hsplit, List.map_append]
  · simp [orchestrateRun, mkInitialState, followupInvocations] at hphase ⊢
    simp [hphase, followupStep, List.filterMap_cons, List.filterMap_append,
      List.filterMap_map, hcomp, List.filterMap_some]
    rw [hsplit]
  · simp [orchestrateRun, mkInitialState] at hphase ⊢
    simp [hphase]

/-- Witness for C6: follow-up exit codes [0, 5, 0] -- the second follow-up
is the first failure, the recorded codes are [0, 5], the error names step 2
and code 5, and the third follow-up is never invoked. -/
theorem followup_failure_records_step_witness :
    (orchestrateRun (mkInitialState "demo_20250101_000000" "demo" "/ws"
        "2025-01-01T00:00:00" "true" ["f1", "f2", "f3"]) 0
        (fun k => if k = 2 then 5 else 0)).final.status = Status.failed ∧
    (orchestrateRun (mkInitialState "demo_20250101_000000" "demo" "/ws"
        "2025-01-01T00:00:00" "true" ["f1", "f2", "f3"]) 0
        (fun k => if k = 2 then 5 else 0)).final.error
        = some "follow-up failed at step 2 rc=5" ∧
    (orchestrateRun (mkInitialState "demo_20250101_000000" "demo" "/ws"
        "2025-01-01T00:00:00" "true" ["f1", "f2", "f3"]) 0
        (fun k => if k = 2 then 5 else 0)).final.then_rcs = some [0, 5] ∧
    followupInvocations (orchestrateRun (mkInitialState "demo_20250101_000000" "demo" "/ws"
        "2025-01-01T00:00:00" "true" ["f1", "f2", "f3"]) 0
        (fun k => if k = 2 then 5 else 0)) = [1, 2] ∧
    (orchestrateRun (mkInitialState "demo_20250101_000000" "demo" "/ws"
        "2025-01-01T00:00:00" "true" ["f1", "f2", "f3"]) 0
        (fun k => if k = 2 then 5 else 0)).exitCode = 1 :=
  followup_failure_records_step "demo_20250101_000000" "demo" "/ws"
    "2025-01-01T00:00:00" "true" ["f1", "f2", "f3"]
    (fun k => if k = 2 then 5 else 0) 2 5 (by decide) (by decide) rfl (by decide)
    (fun k h1 h2 => by
      have hk1 : k = 1 := by omega
      subst hk1
      rfl)

/-! Order lemmas for the lexicographic comparison used by latest_run_dir. -/

theorem charListLe_refl (xs : List Char) : charListLe xs xs = true := by
  induction xs with
  | nil => rfl
  | cons x xs ih => simp [charListLe, lt_self_iff_false, ih]

theorem pyStrLe_refl (a : String) : pyStrLe a a = true :=
  charListLe_refl a.toList

theorem charListLe_total (xs : List Char) :
    ∀ ys, charListLe xs ys = true ∨ charListLe ys xs = true := by
  induction xs with
  | nil => intro ys; left; rfl
  | cons x xs ih =>
      intro ys
      cases ys with
      | nil => right; rfl
      | cons y ys =>
          rcases lt_trichotomy x y with h | h | h
          · left
            simp [charListLe, h]
          · subst h
            rcases ih ys with h2 | h2
            · left
              simp [charListLe, lt_self_iff_false, h2]
            · right
              simp [charListLe, lt_self_iff_false, h2]
          · right
            simp [charListLe, h]

theorem pyStrLe_total (a b : String) : pyStrLe a b = true ∨ pyStrLe b a = true :=
  charListLe_total a.toList b.toList

theorem charListLe_trans :
    ∀ (xs ys zs : List Char), charListLe xs ys = true → charListLe ys zs = true →
      charListLe xs zs = true := by
  intro xs
  induction xs with
  | nil => intro ys zs _ _; rfl
  | cons x xs ih =>
      intro ys zs h1 h2
      cases ys with
      | nil => simp [charListLe] at h1
      | cons y ys =>
          cases zs with
          | nil => simp [charListLe] at h2
          | cons z zs =>
              rcases lt_trichotomy x y with hxy | hxy | hxy
              · rcases lt_trichotomy y z with hyz | hyz | hyz
                · simp [charListLe, lt_trans hxy hyz]
                · subst hyz
                  simp [charListLe, hxy]
                · simp [charListLe, hyz, lt_asymm hyz] at h2
              · subst hxy
                simp only [charListLe, lt_self_iff_false, if_false] at h1
                rcases lt_trichotomy x z with hyz | hyz | hyz
                · simp [charListLe, hyz]
                · subst hyz
                  simp only [charListLe, lt_self_iff_false, if_false] at h2 ⊢
                  exact ih ys zs h1 h2
                · simp [charListLe, hyz, lt_asymm hyz] at h2
              · simp [charListLe, hxy, lt_asymm hxy] at h1

theorem pyStrLe_trans (a b c : String) (h1 : pyStrLe a b = true)
    (h2 : pyStrLe b c = true) : pyStrLe a c = true :=
  charListLe_trans a.toList b.toList c.toList h1 h2

theorem mem_insertSorted (x a : String) :
    ∀ (l : List String), a ∈ insertSorted x l ↔ a = x ∨ a ∈ l := by
  intro l
  induction l with
  | nil => simp [insertSorted]
  | cons y ys ih =>
      by_cases h : pyStrLe x y = true
      · rw [insertSorted, if_pos h]
        exact List.mem_cons
      · rw [insertSorted, if_neg h]
        simp [List.mem_cons, ih]
        tauto

theorem pairwise_insertSorted (x : String) :
    ∀ (l : List String), l.Pairwise (fun a b => pyStrLe a b = true) →
      (insertSorted x l).Pairwise (fun a b => pyStrLe a b = true) := by
  intro l
  induction l with
  | nil =>
      intro _
      simp [insertSorted]
  | cons y ys ih =>
      intro hl
      rcases List.pairwise_cons.mp hl with ⟨hy, hys⟩
      by_cases h : pyStrLe x y = true
      · rw [insertSorted, if_pos h]
        refine List.pairwise_cons.mpr ⟨?_, hl⟩
        intro b hb
        rcases List.mem_cons.mp hb with rfl | hb'
        · exact h
        · exact pyStrLe_trans x y b h (hy b hb')
      · rw [insertSorted, if_neg h]
        refine List.pairwise_cons.mpr ⟨?_, ih hys⟩
        intro b hb
        rcases (mem_insertSorted x b ys).mp hb with hbx | hb'
        · rw [hbx]
          rcases pyStrLe_total x y with hxy | hyx
          · exact absurd hxy h
          · exact hyx
        · exact hy b hb'

theorem pairwise_sortNames : ∀ (l : List String),
    (sortNames l).Pairwise (fun a b => pyStrLe a b = true) := by
  intro l
  induction l with
  | nil => simp [sortNames]
  | cons x xs ih => exact pairwise_insertSorted x (sortNames xs) ih

theorem mem_sortNames (a : String) : ∀ (l : List String), a ∈ sortNames l ↔ a ∈ l := by
  intro l
  induction l with
  | nil => simp [sortNames]
  | cons x xs ih =>
      rw [sortNames, mem_insertSorted]
      simp [List.mem_cons, ih]

theorem mem_of_getLast?_eq : ∀ (l : List String) (m : String), l.getLast? = some m → m ∈ l := by
  intro l
  induction l with
  | nil =>
      intro m h
      simp at h
  | cons x xs ih =>
      intro m h
      cases xs with
      | nil =>
          simp [List.getLast?] at h
          simp [h]
      | cons y ys =>
          rw [List.getLast?_cons_cons] at h
          exact List.mem_cons_of_mem x (ih m h)

theorem pairwise_getLast?_le :
    ∀ (l : List String) (m : String), l.Pairwise (fun a b => pyStrLe a b = true) →
      l.getLast? = some m → ∀ a ∈ l, pyStrLe a m = true := by
  intro l
  induction l with
  | nil =>
      intro m _ h
      simp at h
  | cons x xs ih =>
      intro m hp h a ha
      rcases List.pairwise_cons.mp hp with ⟨hx, hxs⟩
      cases xs with
      | nil =>
          have hm : x = m := by simpa [List.getLast?] using h
          have hax : a = x := by simpa using ha
          subst hm
          subst hax
          exact pyStrLe_refl a
      | cons y ys =>
          rw [List.getLast?_cons_cons] at h
          rcases List.mem_cons.mp ha with rfl | ha'
          · exact hx m (mem_of_getLast?_eq (y :: ys) m h)
          · exact ih m hxs h a ha'

/-- C9 amended: the most-recent selector resolves to the lexicographically
greatest directory name under the runs root (the last element of the
ascending sort); this coincides with the greatest timestamp suffix when the
names share a label, but across different labels the lexicographic order is
dominated by the label prefix, so the selected run need not be the most
recently created one. -/
theorem latest_run_dir_lex_max (dirs : List String) (m : String)
    (h : latest_run_dir dirs = some m) :
    m ∈ dirs ∧ ∀ d ∈ dirs, pyStrLe d m = true := by
  cases dirs with
  | nil => simp [latest_run_dir] at h
  | cons x xs =>
      have h' : (sortNames (x :: xs)).getLast? = some m := h
      have hmem : m ∈ sortNames (x :: xs) := mem_of_getLast?_eq (sortNames (x :: xs)) m h'
      refine ⟨(mem_sortNames m (x :: xs)).mp hmem, ?_⟩
      intro d hd
      exact pairwise_getLast?_le (sortNames (x :: xs)) m (pairwise_sortNames (x :: xs)) h'
        d ((mem_sortNames d (x :: xs)).mpr hd)

/-- Witness for the amended C9 statement: two runs sharing the label demo;
the selected name is the one with the greater timestamp, and it is a
lexicographic upper bound of both names. -/
theorem latest_run_dir_lex_max_witness :
    "demo_20250101_110000" ∈ [mkRunName "demo" "20250101_090000", mkRunName "demo" "20250101_110000"] ∧
    ∀ d ∈ [mkRunName "demo" "20250101_090000", mkRunName "demo" "20250101_110000"],
      pyStrLe d "demo_20250101_110000" = true :=
  latest_run_dir_lex_max
    [mkRunName "demo" "20250101_090000", mkRunName "demo" "20250101_110000"]
    "demo_20250101_110000" (by decide)

/-- C9 counterexample: two runs created at increasing timestamps (the run
labelled a is one year newer than the run labelled b), yet the most-recent
selector resolves to the b run, whose timestamp suffix is lexicographically
smaller -- the label prefix dominates the comparison. -/
theorem latest_ignores_timestamp_across_labels :
    latest_run_dir [mkRunName "b" "20240101_000000", mkRunName "a" "20250101_000000"] =
      some (mkRunName "b" "20240101_000000") ∧
    pyStrLe "20250101_000000" "20240101_000000" = false := by
  decide

end LongRun
